import Mathlib

/-!
Verification development for the SAM application creation slice of the
aws-toolkit-vscode repository: the launch-config reconciler
(addInitialLaunchConfiguration), the exit-code validator, the AWS client
builder, the creation workflow telemetry, and the sam-cli init argument
builder.  Functions whose source file is absent from the corpus are
modelled from the specification text and marked as such in their doc
comments.
-/

namespace AwsToolkit

/-! ## Path equality (pathUtils.areEqual) -/

/-- Modelled from the spec: separator normalization used by the path
equality rule of section 3 (pathUtils is not in the corpus).  Backslash
separators become forward slashes. -/
def normalizeSeparators (l : List Char) : List Char :=
  l.map (fun c => if c = '\\' then '/' else c)

/-- The literal placeholder the external provider introduces in template
paths. -/
def workspaceFolderVar : String := "$\x7bworkspaceFolder\x7d"

/-- Consume an expected leading character sequence, returning the rest
of the input when it is there. -/
def consumeLeading : List Char → List Char → Option (List Char)
  | [], l => some l
  | _ :: _, [] => none
  | p :: ps, c :: cs => if c = p then consumeLeading ps cs else none

/-- Modelled from the spec: resolve a path against the workspace folder
root; the workspaceFolder placeholder is replaced by the root, relative
paths are joined to the root, absolute paths stand. -/
def resolvePathChars (root p : List Char) : List Char :=
  let q := normalizeSeparators p
  let r := normalizeSeparators root
  match consumeLeading workspaceFolderVar.data q with
  | some rest => r ++ rest
  | none =>
    match q with
    | '/' :: _ => q
    | _ => r ++ '/' :: q

/-- Modelled from the spec: pathUtils.areEqual (source file not in src).
Two paths are equal when their forms resolved against the given workspace
folder root match. -/
def areEqual (folderPath a b : String) : Bool :=
  resolvePathChars folderPath.data a.data == resolvePathChars folderPath.data b.data

/-! ## Debug configurations (awsSamDebugConfiguration) -/

/-- Template-typed invoke target: references a template file path and a
logical resource id. -/
structure TemplateTargetProperties where
  templatePath : String
  logicalId : String
deriving DecidableEq, Repr

/-- Invoke target variant of a debug configuration: template target or
code target. -/
inductive InvokeTarget where
  | templateTarget (t : TemplateTargetProperties)
  | codeTarget (lambdaHandler : String) (projectRoot : String)
deriving DecidableEq, Repr

/-- Modelled from the spec: the template-target type guard used by the
reconciler filter (its source file is not in src). -/
def isTemplateTargetProperties : InvokeTarget → Bool
  | .templateTarget _ => true
  | .codeTarget _ _ => false

/-- The nested runtime holder object of a debug configuration. -/
structure LambdaProps where
  runtime : Option String
deriving DecidableEq, Repr

/-- A debug configuration as filtered and mutated by the reconciler. -/
structure DebugConfiguration where
  name : String
  request : String
  invokeTarget : InvokeTarget
  lambda : Option LambdaProps
deriving DecidableEq, Repr

/-- The runtime value currently stored on a configuration, if any. -/
def runtimeOf (c : DebugConfiguration) : Option String :=
  match c.lambda with
  | some l => l.runtime
  | none => none

/-! ## Launch config reconciler (addInitialLaunchConfiguration) -/

/-- The filter predicate of addInitialLaunchConfiguration: the invoke
target is template typed and its template path, resolved against the
folder, path-equals the target file. -/
def matchesTarget (folderPath targetPath : String) (c : DebugConfiguration) : Bool :=
  isTemplateTargetProperties c.invokeTarget &&
    (match c.invokeTarget with
     | .templateTarget t => areEqual folderPath t.templatePath targetPath
     | .codeTarget _ _ => false)

/-- The in-place runtime stamping of addInitialLaunchConfiguration: the
lambda object is created when absent, and its runtime field is set. -/
def setRuntime (r : String) (c : DebugConfiguration) : DebugConfiguration :=
  match c.lambda with
  | none => { c with lambda := some { runtime := some r } }
  | some l => { c with lambda := some { l with runtime := some r } }

/-- Observable outcome of one reconciler run: the value returned (or the
propagated persist failure), every argument passed to the persist call,
and the provider list after the in-place mutation. -/
structure ReconcileResult where
  outcome : Except String (Option (List DebugConfiguration))
  persistCalls : List (List DebugConfiguration)
  configurationsAfter : Option (List DebugConfiguration)
deriving Repr

/-- The filtered list handed to the persist call and returned: the
matching configurations, runtime stamped when a runtime was supplied. -/
def reconcileFiltered (configs : List DebugConfiguration)
    (folderPath targetPath : String) (runtime : Option String) :
    List DebugConfiguration :=
  match runtime with
  | none => configs.filter (matchesTarget folderPath targetPath)
  | some r => (configs.filter (matchesTarget folderPath targetPath)).map (setRuntime r)

/-- Shallow embedding of addInitialLaunchConfiguration
(createNewSamApp.ts).  The provider result, when present, is filtered to
the configurations targeting the new template file; when a runtime is
supplied the filtered configurations are stamped in place; the filtered
list is persisted and returned.  When the provider yields no list the
function returns an absent value without persisting. -/
def addInitialLaunchConfiguration
    (provided : Option (List DebugConfiguration))
    (folderPath targetPath : String)
    (runtime : Option String)
    (persist : List DebugConfiguration → Except String Unit) : ReconcileResult :=
  match provided with
  | none => { outcome := .ok none, persistCalls := [], configurationsAfter := none }
  | some configurations =>
    let filtered := reconcileFiltered configurations folderPath targetPath runtime
    let after :=
      match runtime with
      | none => configurations
      | some r => configurations.map
          (fun c => if matchesTarget folderPath targetPath c then setRuntime r c else c)
    match persist filtered with
    | .ok _ =>
      { outcome := .ok (some filtered), persistCalls := [filtered],
        configurationsAfter := some after }
    | .error e =>
      { outcome := .error e, persistCalls := [filtered],
        configurationsAfter := some after }

/-! ## Exit code validator (logAndThrowIfUnexpectedExitCode) -/

/-- Result of one child process invocation.  A present launch error means
the process never ran. -/
structure ProcessResult where
  exitCode : Option Int
  error : Option String
  stdout : String
  stderr : String
deriving DecidableEq, Repr

/-- The typed failure raised on an exit code mismatch, carrying the
mismatched codes and the captured output. -/
structure UnexpectedExitCodeError where
  expectedCode : Int
  actualCode : Option Int
  stdout : String
  stderr : String
deriving DecidableEq, Repr

/-- One structured diagnostic log record written before raising. -/
structure ExitLogEntry where
  expectedCode : Int
  actualCode : Option Int
  stdout : String
  stderr : String
  errorMessage : Option String
deriving DecidableEq, Repr

/-- Ordered observable events of one validator run. -/
inductive CheckExitEvent where
  | log (entry : ExitLogEntry)
  | raise (e : UnexpectedExitCodeError)
deriving DecidableEq, Repr

/-- Whether the validator treats the result as a mismatch: a present
launch error is an automatic mismatch, otherwise the actual exit code
must equal the expected one. -/
def exitMismatch (r : ProcessResult) (expectedCode : Int) : Bool :=
  r.error.isSome || r.exitCode != some expectedCode

/-- Modelled from the spec: logAndThrowIfUnexpectedExitCode
(samCliInvokerUtils, source file not in src).  On a mismatch it first
writes one structured log record, then raises the typed error; otherwise
it does nothing. -/
def logAndThrowIfUnexpectedExitCode (r : ProcessResult) (expectedCode : Int) :
    List CheckExitEvent :=
  if exitMismatch r expectedCode then
    [ .log { expectedCode := expectedCode, actualCode := r.exitCode,
             stdout := r.stdout, stderr := r.stderr, errorMessage := r.error },
      .raise { expectedCode := expectedCode, actualCode := r.exitCode,
               stdout := r.stdout, stderr := r.stderr } ]
  else []

/-- Whether a validator run raised. -/
def checkExitRaises (events : List CheckExitEvent) : Bool :=
  events.any (fun e => match e with | .raise _ => true | .log _ => false)

/-- The log entries of a validator run, in order. -/
def checkExitLogs (events : List CheckExitEvent) : List ExitLogEntry :=
  events.foldr (fun e acc => match e with | .log entry => entry :: acc | .raise _ => acc) []

/-! ## AWS client builder (DefaultAWSClientBuilder.createAndConfigureServiceClient) -/

/-- The service configuration options record mutated by the builder.
Credentials are an opaque object, the other fields are strings. -/
structure ServiceConfigurationOptions where
  credentials : Option String
  region : Option String
  customUserAgent : Option String
  endpoint : Option String
deriving DecidableEq, Repr

/-- Empty options object, used when the caller passed none. -/
def emptyOptions : ServiceConfigurationOptions :=
  { credentials := none, region := none, customUserAgent := none, endpoint := none }

/-- JavaScript truthiness of an optional string: absent and empty are
falsy. -/
def strTruthy : Option String → Bool
  | none => false
  | some s => !(s == "")

/-- Ambient inputs of the builder: context credentials, the IDE
application name and version, the plugin version, and the endpoint
setting. -/
structure BuilderEnv where
  contextCredentials : String
  appName : String
  vscodeVersion : String
  pluginVersion : String
  settingsEndpoint : Option String
deriving Repr

/-- The platform name: the IDE application name with every whitespace
character replaced by a dash. -/
def platformName (appName : String) : String :=
  (appName.data.map (fun c => if c.isWhitespace then '-' else c)).asString

/-- The user agent string constructed by the builder. -/
def builtUserAgent (env : BuilderEnv) : String :=
  "AWS-Toolkit-For-VSCode/" ++ env.pluginVersion ++ " " ++
    platformName env.appName ++ "/" ++ env.vscodeVersion

/-- Shallow embedding of
DefaultAWSClientBuilder.createAndConfigureServiceClient
(awsClientBuilder.ts): fills in credentials, region, custom user agent
(when addUserAgent and not already set) and the endpoint override from
settings (when truthy), then hands the options to the factory. -/
def createAndConfigureServiceClient
    (awsServiceOpts : Option ServiceConfigurationOptions)
    (region : Option String)
    (addUserAgent : Bool)
    (env : BuilderEnv) : ServiceConfigurationOptions :=
  let opts := match awsServiceOpts with
    | none => emptyOptions
    | some o => o
  let opts := if opts.credentials.isSome then opts
    else { opts with credentials := some env.contextCredentials }
  let opts := if !strTruthy opts.region && strTruthy region then { opts with region := region }
    else opts
  let opts := if !strTruthy opts.customUserAgent && addUserAgent then
      { opts with customUserAgent := some (builtUserAgent env) }
    else opts
  let opts := if strTruthy env.settingsEndpoint then { opts with endpoint := env.settingsEndpoint }
    else opts
  opts

/-! ## Creation workflow telemetry (createNewSamApplication, resumeCreateNewSamApp) -/

/-- Lambda package type selected by the wizard. -/
inductive PackageType where
  | zip
  | image
deriving DecidableEq, Repr

/-- The telemetry name of a package type. -/
def packageTypeName : PackageType → String
  | .zip => "Zip"
  | .image => "Image"

/-- The wizard response consumed by the creation workflow. -/
structure WizardResponse where
  name : String
  location : String
  runtime : String
  packageType : PackageType
  template : Option String
deriving Repr

/-- One outcome telemetry event recorded by recordSamInit. -/
structure SamInitTelemetry where
  lambdaPackageType : Option String
  result : String
  reason : String
  runtime : Option String
  version : Option String
deriving DecidableEq, Repr

/-- The telemetry recording call: emits one event. -/
def recordSamInit (e : SamInitTelemetry) : List SamInitTelemetry := [e]

/-- Modelled from the spec: the identifier of the event bridge starter
template (samTemplates is not in the corpus); only its equality with the
wizard selection matters here. -/
def eventBridgeStarterAppTemplate : String := "eventBridgeHelloWorld"

/-- Outcomes of the external collaborators awaited by
createNewSamApplication, in program order; an error value means the
awaited call rejected (threw). -/
structure CreateEnv where
  validateSamCli : Except String Unit
  getCredentials : Except String Unit
  getSamCliVersion : Except String String
  runWizard : Except String (Option WizardResponse)
  getDependencyManager : Except String String
  buildSchemaTemplateParameters : Except String String
  runSamCliInit : Except String Unit
  getMainUri : Except String (Option String)
  downloadCode : Except String Unit
  addFolderToWorkspace : Except String Unit
  waitUntilRegistered : Except String Bool
  reconcile : Except String (Option (List DebugConfiguration))
  openDoc : Except String Unit

/-- Shallow embedding of createNewSamApplication (createNewSamApp.ts),
observed through its emitted telemetry.  Each match mirrors one awaited
statement of the try block; error branches mirror the catch block
(result Failed, reason error), early returns keep the variable values
they had at the return site, and the final recordSamInit of the finally
block closes every path. -/
def createNewSamApplication (env : CreateEnv) : List SamInitTelemetry :=
  match env.validateSamCli with
  | .error _ => recordSamInit
      { lambdaPackageType := none, result := "Failed", reason := "error",
        runtime := none, version := none }
  | .ok _ =>
  match env.getCredentials with
  | .error _ => recordSamInit
      { lambdaPackageType := none, result := "Failed", reason := "error",
        runtime := none, version := none }
  | .ok _ =>
  match env.getSamCliVersion with
  | .error _ => recordSamInit
      { lambdaPackageType := none, result := "Failed", reason := "error",
        runtime := none, version := none }
  | .ok samVersion =>
  match env.runWizard with
  | .error _ => recordSamInit
      { lambdaPackageType := none, result := "Failed", reason := "error",
        runtime := none, version := some samVersion }
  | .ok none => recordSamInit
      { lambdaPackageType := none, result := "Cancelled", reason := "userCancelled",
        runtime := none, version := some samVersion }
  | .ok (some config) =>
  match env.getDependencyManager with
  | .error _ => recordSamInit
      { lambdaPackageType := none, result := "Failed", reason := "error",
        runtime := some config.runtime, version := some samVersion }
  | .ok _ =>
  match (if config.template = some eventBridgeStarterAppTemplate
         then Except.map (fun x => some x) env.buildSchemaTemplateParameters
         else .ok none) with
  | .error _ => recordSamInit
      { lambdaPackageType := none, result := "Failed", reason := "error",
        runtime := some config.runtime, version := some samVersion }
  | .ok _extraContent =>
  let pkg := packageTypeName config.packageType
  match env.runSamCliInit with
  | .error _ => recordSamInit
      { lambdaPackageType := some pkg, result := "Failed", reason := "error",
        runtime := some config.runtime, version := some samVersion }
  | .ok _ =>
  match env.getMainUri with
  | .error _ => recordSamInit
      { lambdaPackageType := some pkg, result := "Failed", reason := "error",
        runtime := some config.runtime, version := some samVersion }
  | .ok none => recordSamInit
      { lambdaPackageType := some pkg, result := "Succeeded", reason := "fileNotFound",
        runtime := some config.runtime, version := some samVersion }
  | .ok (some _uri) =>
  match (if config.template = some eventBridgeStarterAppTemplate
         then env.downloadCode else .ok ()) with
  | .error _ => recordSamInit
      { lambdaPackageType := some pkg, result := "Failed", reason := "error",
        runtime := some config.runtime, version := some samVersion }
  | .ok _ =>
  match env.addFolderToWorkspace with
  | .error _ => recordSamInit
      { lambdaPackageType := some pkg, result := "Failed", reason := "error",
        runtime := some config.runtime, version := some samVersion }
  | .ok _ =>
  match env.waitUntilRegistered with
  | .error _ => recordSamInit
      { lambdaPackageType := some pkg, result := "Failed", reason := "error",
        runtime := some config.runtime, version := some samVersion }
  | .ok true =>
    (match env.reconcile with
     | .error _ => recordSamInit
         { lambdaPackageType := some pkg, result := "Failed", reason := "error",
           runtime := some config.runtime, version := some samVersion }
     | .ok _configs =>
       match env.openDoc with
       | .error _ => recordSamInit
           { lambdaPackageType := some pkg, result := "Failed", reason := "error",
             runtime := some config.runtime, version := some samVersion }
       | .ok _ => recordSamInit
           { lambdaPackageType := some pkg, result := "Succeeded", reason := "complete",
             runtime := some config.runtime, version := some samVersion })
  | .ok false =>
    match env.openDoc with
    | .error _ => recordSamInit
        { lambdaPackageType := some pkg, result := "Failed", reason := "error",
          runtime := some config.runtime, version := some samVersion }
    | .ok _ => recordSamInit
        { lambdaPackageType := some pkg, result := "Failed", reason := "fileNotFound",
          runtime := some config.runtime, version := some samVersion }

/-- The state persisted before a possible IDE reload. -/
structure SamInitState where
  path : String
  runtime : String
  isImage : Bool
deriving Repr

/-- Outcomes of the external collaborators of resumeCreateNewSamApp. -/
structure ResumeEnv where
  samInitState : Option SamInitState
  getWorkspaceFolder : Option String
  getSamCliVersion : Except String String
  reconcile : Except String (Option (List DebugConfiguration))
  showTextDocument : Except String Unit

/-- Shallow embedding of resumeCreateNewSamApp (createNewSamApp.ts),
observed through its emitted telemetry.  A missing persisted state makes
the uri construction throw inside the try block; a missing workspace
folder takes the early return after setting Failed and error; otherwise
the version fetch, the reconciler and the editor call run in order, any
rejection landing in the catch block.  The finally block records one
event on every path. -/
def resumeCreateNewSamApp (env : ResumeEnv) : List SamInitTelemetry :=
  let pkg := some (if (env.samInitState.map SamInitState.isImage).getD false
                   then "Image" else "Zip")
  let rt := env.samInitState.map SamInitState.runtime
  match env.samInitState with
  | none => recordSamInit
      { lambdaPackageType := pkg, result := "Failed", reason := "error",
        runtime := rt, version := none }
  | some _ =>
    match env.getWorkspaceFolder with
    | none => recordSamInit
        { lambdaPackageType := pkg, result := "Failed", reason := "error",
          runtime := rt, version := none }
    | some _ =>
      match env.getSamCliVersion with
      | .error _ => recordSamInit
          { lambdaPackageType := pkg, result := "Failed", reason := "error",
            runtime := rt, version := none }
      | .ok v =>
        match env.reconcile with
        | .error _ => recordSamInit
            { lambdaPackageType := pkg, result := "Failed", reason := "error",
              runtime := rt, version := some v }
        | .ok _ =>
          match env.showTextDocument with
          | .error _ => recordSamInit
              { lambdaPackageType := pkg, result := "Failed", reason := "error",
                runtime := rt, version := some v }
          | .ok _ => recordSamInit
              { lambdaPackageType := pkg, result := "Succeeded", reason := "complete",
                runtime := rt, version := some v }

/-! ## JSON serialization of the extra template context -/

/-- Lower case hex digit of a value below sixteen. -/
def hexDigit (n : Nat) : Char :=
  if n < 10 then Char.ofNat (48 + n) else Char.ofNat (87 + n)

/-- Value of a lower case hex digit. -/
def hexVal (c : Char) : Option Nat :=
  if 48 ≤ c.toNat ∧ c.toNat ≤ 57 then some (c.toNat - 48)
  else if 97 ≤ c.toNat ∧ c.toNat ≤ 102 then some (c.toNat - 87)
  else none

/-- JSON escape of one character inside a string literal, as produced by
the JavaScript serializer: quote, backslash and the named control
characters get two character escapes, the remaining control characters a
hexadecimal escape, everything else stands. -/
def escChar (c : Char) : List Char :=
  if c = '"' then ['\\', '"']
  else if c = '\\' then ['\\', '\\']
  else if c = '\n' then ['\\', 'n']
  else if c = '\r' then ['\\', 'r']
  else if c = '\t' then ['\\', 't']
  else if c = '\x08' then ['\\', 'b']
  else if c = '\x0c' then ['\\', 'f']
  else if c.toNat < 32 then
    ['\\', 'u', '0', '0', hexDigit (c.toNat / 16), hexDigit (c.toNat % 16)]
  else [c]

/-- JSON escape of a character sequence. -/
def escList : List Char → List Char
  | [] => []
  | c :: cs => escChar c ++ escList cs

/-- A JSON string literal: quote, escaped body, quote. -/
def quoteChars (s : String) : List Char :=
  '"' :: (escList s.data ++ ['"'])

/-- One JSON object member: key, colon, value. -/
def entryChars (kv : String × String) : List Char :=
  quoteChars kv.1 ++ ':' :: quoteChars kv.2

/-- The members after the first one, each preceded by a comma. -/
def joinEntries : List (String × String) → List Char
  | [] => []
  | kv :: rest => ',' :: (entryChars kv ++ joinEntries rest)

/-- The characters of the JSON object serializing a string mapping, with
no whitespace, in member order. -/
def objChars : List (String × String) → List Char
  | [] => ['{', '}']
  | kv :: rest => '{' :: (entryChars kv ++ joinEntries rest ++ ['}'])

/-- Modelled from the spec: the JSON serialization of the extra template
context used for the extra-context flag value, mirroring the JavaScript
object serializer on string to string mappings. -/
def jsonStringifyObj (m : List (String × String)) : String :=
  (objChars m).asString

/-- JSON string body decoder: consumes characters up to the closing
quote, undoing the escapes the serializer produces, and returns the
decoded body together with the remaining input. -/
def parseStringBody : List Char → Option (List Char × List Char)
  | [] => none
  | c :: rest =>
    if c = '"' then some ([], rest)
    else if c = '\\' then
      match rest with
      | [] => none
      | e :: rest2 =>
        if e = '"' then (parseStringBody rest2).map (fun p => ('"' :: p.1, p.2))
        else if e = '\\' then (parseStringBody rest2).map (fun p => ('\\' :: p.1, p.2))
        else if e = 'n' then (parseStringBody rest2).map (fun p => ('\n' :: p.1, p.2))
        else if e = 'r' then (parseStringBody rest2).map (fun p => ('\r' :: p.1, p.2))
        else if e = 't' then (parseStringBody rest2).map (fun p => ('\t' :: p.1, p.2))
        else if e = 'b' then (parseStringBody rest2).map (fun p => ('\x08' :: p.1, p.2))
        else if e = 'f' then (parseStringBody rest2).map (fun p => ('\x0c' :: p.1, p.2))
        else if e = 'u' then
          match rest2 with
          | d0 :: d1 :: d2 :: d3 :: rest3 =>
            match hexVal d0, hexVal d1, hexVal d2, hexVal d3 with
            | some h0, some h1, some h2, some h3 =>
              (parseStringBody rest3).map
                (fun p => (Char.ofNat (((h0 * 16 + h1) * 16 + h2) * 16 + h3) :: p.1, p.2))
            | _, _, _, _ => none
          | _ => none
        else none
    else (parseStringBody rest).map (fun p => (c :: p.1, p.2))

/-- Decode one JSON string literal, returning it with the remaining
input. -/
def parseQuoted (l : List Char) : Option (String × List Char) :=
  match l with
  | '"' :: rest => (parseStringBody rest).map (fun p => (p.1.asString, p.2))
  | _ => none

/-- Decode one object member: string key, colon, string value. -/
def parseEntry (l : List Char) : Option ((String × String) × List Char) :=
  match parseQuoted l with
  | none => none
  | some (k, r1) =>
    match r1 with
    | ':' :: r2 =>
      match parseQuoted r2 with
      | none => none
      | some (v, r3) => some ((k, v), r3)
    | _ => none

/-- Decode a nonempty member list up to the closing brace; the fuel
bounds the number of members. -/
def parseEntries : Nat → List Char → Option (List (String × String) × List Char)
  | 0, _ => none
  | fuel + 1, l =>
    match parseEntry l with
    | none => none
    | some (kv, r) =>
      match r with
      | ',' :: r2 =>
        (match parseEntries fuel r2 with
         | none => none
         | some (m, r3) => some (kv :: m, r3))
      | '}' :: r2 => some ([kv], r2)
      | _ => none

/-- Modelled from the spec: JSON decoding of a flat string to string
object, the inverse direction of the serialize then parse round trip. -/
def jsonParseObj (s : String) : Option (List (String × String)) :=
  match s.data with
  | '{' :: rest =>
    (match rest with
     | ['}'] => some []
     | _ =>
       match parseEntries rest.length rest with
       | some (m, []) => some m
       | _ => none)
  | _ => none

/-! ## Sam cli init argument builder -/

/-- The init request, section 3 of the spec. -/
structure InitRequest where
  name : String
  location : String
  runtime : Option String
  packageType : PackageType
  template : Option String
  dependencyManager : String
  extraContent : Option (List (String × String))
  baseImage : Option String

/-- Modelled from the spec: the argument builder of the init call
(samCliInit source file is not in src), section 4.1.  The subcommand
token leads, then name, the unconditional no-interactive flag and the
dependency manager; the package type branch emits the base image flag
for image packages and the runtime plus optional mapped app template for
zip packages; a present extra template context is serialized as a single
JSON value; a flag is never emitted when its value is absent.
mapTemplate stands for the external template parameter mapping. -/
def buildInitArgs (mapTemplate : String → String) (r : InitRequest) : List String :=
  ["init", "--name", r.name, "--no-interactive", "--dependency-manager", r.dependencyManager]
  ++ (match r.packageType with
      | .image =>
        (match r.baseImage with
         | some b => ["--base-image", b]
         | none => [])
      | .zip =>
        (match r.runtime with
         | some rt => ["--runtime", rt]
         | none => [])
        ++ (match r.template with
            | some t => ["--app-template", mapTemplate t]
            | none => []))
  ++ (match r.extraContent with
      | some m => ["--extra-context", jsonStringifyObj m]
      | none => [])

/-! ## Concrete data for witnesses -/

/-- The candidate configuration of the reconciler tests: a template
target referencing the new file through the workspace folder
placeholder. -/
def sampleConfig : DebugConfiguration :=
  { name := "name", request := "direct-invoke",
    invokeTarget := .templateTarget
      { templatePath := "$\x7bworkspaceFolder\x7d/test.yaml", logicalId := "resource" },
    lambda := none }

/-- The zip init request of the hello world test, template absent. -/
def sampleInitRequest : InitRequest :=
  { name := "qwerty", location := "/some/path/to/code.js",
    runtime := some "nodejs10.x", packageType := .zip, template := none,
    dependencyManager := "npm", extraContent := none, baseImage := none }

/-- The extra template context mapping of the event bridge test. -/
def sampleExtraContent : List (String × String) :=
  [ ("AWS_Schema_registry", "testRegistry"),
    ("AWS_Schema_name", "testSchema"),
    ("AWS_Schema_root", "test"),
    ("AWS_Schema_source", "AWS"),
    ("AWS_Schema_detail_type", "ec2"),
    ("user_agent", "testAgent") ]

/-- The event bridge init request of the extra context test. -/
def sampleEventBridgeRequest : InitRequest :=
  { name := "qwerty", location := "/some/path/to/code.js",
    runtime := some "python3.6", packageType := .zip,
    template := some eventBridgeStarterAppTemplate,
    dependencyManager := "npm", extraContent := some sampleExtraContent,
    baseImage := none }

/-- A concrete builder environment. -/
def sampleBuilderEnv : BuilderEnv :=
  { contextCredentials := "credentials", appName := "Visual Studio Code",
    vscodeVersion := "1.50.0", pluginVersion := "1.20.0",
    settingsEndpoint := some "http://localhost:4572" }

end AwsToolkit

-- ===== THEOREMS =====

namespace AwsToolkit

/-- Stamping a runtime always leaves the runtime field set to it. -/
theorem runtimeOf_setRuntime (r : String) (c : DebugConfiguration) :
    runtimeOf (setRuntime r c) = some r := by
  unfold runtimeOf setRuntime
  cases c.lambda <;> simp

/-- Evaluation of one reconciler run on a provided list: the outcome is
the persist result mapped to the filtered list, the persist call is made
exactly once, and the provider list is updated in place. -/
theorem addInitialLaunchConfiguration_some
    (configs : List DebugConfiguration) (folderPath targetPath : String)
    (runtime : Option String)
    (persist : List DebugConfiguration → Except String Unit) :
    addInitialLaunchConfiguration (some configs) folderPath targetPath runtime persist =
      { outcome := (persist (reconcileFiltered configs folderPath targetPath runtime)).map
          (fun _ => some (reconcileFiltered configs folderPath targetPath runtime)),
        persistCalls := [reconcileFiltered configs folderPath targetPath runtime],
        configurationsAfter := some (match runtime with
          | none => configs
          | some r => configs.map
              (fun c => if matchesTarget folderPath targetPath c then setRuntime r c else c)) } := by
  unfold addInitialLaunchConfiguration
  cases hp : persist (reconcileFiltered configs folderPath targetPath runtime) <;>
    simp [hp, Except.map]

/-- C1: for every candidate configuration list, workspace root and
target file path, the reconciler returns exactly the subset of
candidates whose invoke target is template typed and whose template
path, resolved against the root, path-equals the target; when nothing
matches it returns the empty sequence, not an absent value. -/
theorem addInitialLaunchConfiguration_returns_exact_matches
    (configs : List DebugConfiguration) (folderPath targetPath : String)
    (persist : List DebugConfiguration → Except String Unit)
    (h : persist (configs.filter (matchesTarget folderPath targetPath)) = .ok ()) :
    (addInitialLaunchConfiguration (some configs) folderPath targetPath none persist).outcome
      = .ok (some (configs.filter (matchesTarget folderPath targetPath)))
    ∧ ((∀ c ∈ configs, matchesTarget folderPath targetPath c = false) →
        (addInitialLaunchConfiguration (some configs) folderPath targetPath none persist).outcome
          = .ok (some [])) := by
  have hmain :
      (addInitialLaunchConfiguration (some configs) folderPath targetPath none persist).outcome
        = .ok (some (configs.filter (matchesTarget folderPath targetPath))) := by
    rw [addInitialLaunchConfiguration_some]
    simp only [reconcileFiltered]
    simp [h, Except.map]
  refine ⟨hmain, fun hnone => ?_⟩
  have hnil : configs.filter (matchesTarget folderPath targetPath) = [] :=
    List.filter_eq_nil_iff.mpr (fun c hc => by simp [hnone c hc])
  rw [hmain, hnil]

/-- C1 witness: the test scenario. A single candidate targeting the
workspace template file is returned when the target is that file, and
the empty sequence is returned for a different target. -/
theorem addInitialLaunchConfiguration_returns_exact_matches_witness :
    (addInitialLaunchConfiguration (some [sampleConfig]) "/w" "/w/test.yaml" none
        (fun _ => .ok ())).outcome = .ok (some [sampleConfig])
    ∧ (addInitialLaunchConfiguration (some [sampleConfig]) "/w" "/w/other.yaml" none
        (fun _ => .ok ())).outcome = .ok (some []) := by
  constructor
  · have h := (addInitialLaunchConfiguration_returns_exact_matches [sampleConfig]
      "/w" "/w/test.yaml" (fun _ => .ok ()) rfl).1
    have hf : ([sampleConfig].filter (matchesTarget "/w" "/w/test.yaml")) = [sampleConfig] := by
      decide
    rw [hf] at h
    exact h
  · exact (addInitialLaunchConfiguration_returns_exact_matches [sampleConfig]
      "/w" "/w/other.yaml" (fun _ => .ok ()) rfl).2 (by decide)

/-- C4: with a runtime supplied, every configuration of the matched list
has its runtime holder created if absent and its runtime set; the
mutation covers the whole filtered list and touches no configuration
outside it. -/
theorem addInitialLaunchConfiguration_stamps_runtime
    (configs : List DebugConfiguration) (folderPath targetPath r : String)
    (persist : List DebugConfiguration → Except String Unit)
    (h : persist (reconcileFiltered configs folderPath targetPath (some r)) = .ok ()) :
    (addInitialLaunchConfiguration (some configs) folderPath targetPath (some r) persist).outcome
      = .ok (some ((configs.filter (matchesTarget folderPath targetPath)).map (setRuntime r)))
    ∧ (∀ c ∈ (configs.filter (matchesTarget folderPath targetPath)).map (setRuntime r),
        runtimeOf c = some r)
    ∧ (addInitialLaunchConfiguration (some configs) folderPath targetPath (some r) persist).configurationsAfter
      = some (configs.map
          (fun c => if matchesTarget folderPath targetPath c then setRuntime r c else c))
    ∧ ∀ i : Fin configs.length,
        matchesTarget folderPath targetPath (configs.get i) = false →
        (configs.map
            (fun c => if matchesTarget folderPath targetPath c then setRuntime r c else c)).get
          (Fin.cast (by simp) i) = configs.get i := by
  refine ⟨?_, ?_, ?_, ?_⟩
  · rw [addInitialLaunchConfiguration_some]
    simp only [reconcileFiltered] at h ⊢
    simp [h, Except.map]
  · intro c hc
    rcases List.mem_map.mp hc with ⟨c0, _, rfl⟩
    exact runtimeOf_setRuntime r c0
  · rw [addInitialLaunchConfiguration_some]
  · intro i hi
    simp only [List.get_eq_getElem] at hi ⊢
    simp [List.getElem_map, hi]

/-- C4 witness: the test scenario with runtime someruntime stamps the
single matched configuration. -/
theorem addInitialLaunchConfiguration_stamps_runtime_witness :
    (addInitialLaunchConfiguration (some [sampleConfig]) "/w" "/w/test.yaml"
        (some "someruntime") (fun _ => .ok ())).outcome
      = .ok (some [setRuntime "someruntime" sampleConfig])
    ∧ runtimeOf (setRuntime "someruntime" sampleConfig) = some "someruntime" := by
  have h := addInitialLaunchConfiguration_stamps_runtime [sampleConfig]
    "/w" "/w/test.yaml" "someruntime" (fun _ => .ok ()) rfl
  constructor
  · have hf : ([sampleConfig].filter (matchesTarget "/w" "/w/test.yaml")).map
        (setRuntime "someruntime") = [setRuntime "someruntime" sampleConfig] := by decide
    have := h.1
    rw [hf] at this
    exact this
  · exact h.2.1 (setRuntime "someruntime" sampleConfig) (by decide)

/-- C5 counterexample: when the persist call fails, the reconciler does
not return the filtered list at all — the failure propagates instead, so
the claim that the list is returned regardless of persist failure is
false. -/
theorem addInitialLaunchConfiguration_persist_failure_counterexample :
    (addInitialLaunchConfiguration (some [sampleConfig]) "/w" "/w/test.yaml" none
        (fun _ => .error "persist failed")).outcome = .error "persist failed"
    ∧ (addInitialLaunchConfiguration (some [sampleConfig]) "/w" "/w/test.yaml" none
        (fun _ => .error "persist failed")).outcome ≠ .ok (some [sampleConfig]) := by
  refine ⟨rfl, ?_⟩
  intro hcontra
  exact Except.noConfusion ((rfl :
    (addInitialLaunchConfiguration (some [sampleConfig]) "/w" "/w/test.yaml" none
      (fun _ => .error "persist failed")).outcome = .error "persist failed").symm.trans hcontra)

/-- C5 amended: the reconciler persists the filtered list exactly once;
when the persist call succeeds the same list is returned, and when it
fails the failure propagates unchanged — it is never swallowed — and no
list is returned. -/
theorem addInitialLaunchConfiguration_persist_propagation
    (configs : List DebugConfiguration) (folderPath targetPath : String)
    (runtime : Option String)
    (persist : List DebugConfiguration → Except String Unit) :
    (∀ u : Unit, persist (reconcileFiltered configs folderPath targetPath runtime) = .ok u →
      (addInitialLaunchConfiguration (some configs) folderPath targetPath runtime persist).outcome
        = .ok (some (reconcileFiltered configs folderPath targetPath runtime)))
    ∧ (∀ e : String, persist (reconcileFiltered configs folderPath targetPath runtime) = .error e →
      (addInitialLaunchConfiguration (some configs) folderPath targetPath runtime persist).outcome
        = .error e)
    ∧ (addInitialLaunchConfiguration (some configs) folderPath targetPath runtime persist).persistCalls
        = [reconcileFiltered configs folderPath targetPath runtime] := by
  refine ⟨fun u hu => ?_, fun e he => ?_, ?_⟩ <;>
    unfold addInitialLaunchConfiguration <;>
    cases hp : persist (reconcileFiltered configs folderPath targetPath runtime) <;>
    simp_all

/-- C5 amended witness: a failing persist propagates its error. -/
theorem addInitialLaunchConfiguration_persist_propagation_witness :
    (addInitialLaunchConfiguration (some [sampleConfig]) "/w" "/w/test.yaml" none
        (fun _ => .error "boom")).outcome = .error "boom" :=
  (addInitialLaunchConfiguration_persist_propagation [sampleConfig] "/w" "/w/test.yaml"
    none (fun _ => .error "boom")).2.1 "boom" rfl

/-- C10: when the provider yields no configuration list at all, the
reconciler returns an absent value, never calls the persist step, and
that absent value is distinct from the empty sequence returned when a
provided list matches nothing. -/
theorem addInitialLaunchConfiguration_absent_provider
    (folderPath targetPath : String) (runtime : Option String)
    (persist : List DebugConfiguration → Except String Unit) :
    (addInitialLaunchConfiguration none folderPath targetPath runtime persist).outcome
      = .ok none
    ∧ (addInitialLaunchConfiguration none folderPath targetPath runtime persist).persistCalls
      = []
    ∧ ((.ok none : Except String (Option (List DebugConfiguration))) ≠ .ok (some [])) := by
  refine ⟨rfl, rfl, ?_⟩
  intro h
  simp at h

/-- C2: the validator raises exactly when the exit code differs from the
expected one or a launch error is present; the raised error carries the
mismatched codes and the captured output; it does not raise when the
exit code equals the expected code and no launch error occurred. -/
theorem logAndThrowIfUnexpectedExitCode_raises_iff (r : ProcessResult) (expected : Int) :
    (checkExitRaises (logAndThrowIfUnexpectedExitCode r expected)
      = (r.error.isSome || r.exitCode != some expected))
    ∧ (∀ e, CheckExitEvent.raise e ∈ logAndThrowIfUnexpectedExitCode r expected →
        e = { expectedCode := expected, actualCode := r.exitCode,
              stdout := r.stdout, stderr := r.stderr })
    ∧ (r.error = none → r.exitCode = some expected →
        logAndThrowIfUnexpectedExitCode r expected = []) := by
  refine ⟨?_, ?_, fun h1 h2 => ?_⟩
  · cases hm : exitMismatch r expected <;>
      simp only [logAndThrowIfUnexpectedExitCode, hm, if_true, if_false,
        Bool.false_eq_true, if_neg, checkExitRaises] <;>
      simp_all [exitMismatch, checkExitRaises]
  · intro e he
    unfold logAndThrowIfUnexpectedExitCode at he
    by_cases hm : exitMismatch r expected = true <;> simp [hm] at he
    exact he
  · unfold logAndThrowIfUnexpectedExitCode
    simp [exitMismatch, h1, h2]

/-- C2 witness: the validator does not raise on the expected nonzero
exit code 123, and raises on a mismatch. -/
theorem logAndThrowIfUnexpectedExitCode_raises_iff_witness :
    logAndThrowIfUnexpectedExitCode
        { exitCode := some 123, error := none, stdout := "", stderr := "" } 123 = [] :=
  (logAndThrowIfUnexpectedExitCode_raises_iff
    { exitCode := some 123, error := none, stdout := "", stderr := "" } 123).2.2 rfl rfl

/-- C3: on every failing input the validator first writes exactly one
structured log entry carrying the expected code, the actual code, the
captured output and the triggering error message, and only then
raises. -/
theorem logAndThrowIfUnexpectedExitCode_logs_once_before_raise
    (r : ProcessResult) (expected : Int)
    (h : exitMismatch r expected = true) :
    logAndThrowIfUnexpectedExitCode r expected =
      [ CheckExitEvent.log
          { expectedCode := expected, actualCode := r.exitCode,
            stdout := r.stdout, stderr := r.stderr, errorMessage := r.error },
        CheckExitEvent.raise
          { expectedCode := expected, actualCode := r.exitCode,
            stdout := r.stdout, stderr := r.stderr } ]
    ∧ (checkExitLogs (logAndThrowIfUnexpectedExitCode r expected)).length = 1 := by
  constructor <;> simp [logAndThrowIfUnexpectedExitCode, h, checkExitLogs]

/-- C3 witness: the failing test input logs its one entry, with the
triggering error message, before raising. -/
theorem logAndThrowIfUnexpectedExitCode_logs_once_before_raise_witness :
    logAndThrowIfUnexpectedExitCode
        { exitCode := some 123, error := some "bad result",
          stdout := "stdout text", stderr := "stderr text" } 456 =
      [ CheckExitEvent.log
          { expectedCode := 456, actualCode := some 123,
            stdout := "stdout text", stderr := "stderr text",
            errorMessage := some "bad result" },
        CheckExitEvent.raise
          { expectedCode := 456, actualCode := some 123,
            stdout := "stdout text", stderr := "stderr text" } ]
    ∧ (checkExitLogs (logAndThrowIfUnexpectedExitCode
        { exitCode := some 123, error := some "bad result",
          stdout := "stdout text", stderr := "stderr text" } 456)).length = 1 :=
  logAndThrowIfUnexpectedExitCode_logs_once_before_raise
    { exitCode := some 123, error := some "bad result",
      stdout := "stdout text", stderr := "stderr text" } 456 (by decide)

/-- C9 counterexample: with the addUserAgent flag cleared and no caller
supplied user agent the options carry none, and an empty endpoint
setting is not injected; so the claim that the user agent is set
whenever the caller did not supply one, for every invocation, is
false. -/
theorem createAndConfigureServiceClient_counterexample :
    (createAndConfigureServiceClient (some emptyOptions) none false
        sampleBuilderEnv).customUserAgent = none
    ∧ (createAndConfigureServiceClient (some emptyOptions) none true
        { sampleBuilderEnv with settingsEndpoint := some "" }).endpoint = none := by
  constructor <;> rfl

/-- C9 amended: the constructed options carry the product slash version
space platform slash platform version user agent whenever the caller did
not supply a nonempty one and the addUserAgent flag (true by default) is
set; and they carry the endpoint override whenever a nonempty endpoint
is present in settings. -/
theorem createAndConfigureServiceClient_agent_endpoint
    (awsServiceOpts : Option ServiceConfigurationOptions) (region : Option String)
    (addUserAgent : Bool) (env : BuilderEnv) :
    (strTruthy ((match awsServiceOpts with
        | none => emptyOptions
        | some o => o).customUserAgent) = false → addUserAgent = true →
      (createAndConfigureServiceClient awsServiceOpts region addUserAgent env).customUserAgent
        = some (builtUserAgent env))
    ∧ (strTruthy env.settingsEndpoint = true →
      (createAndConfigureServiceClient awsServiceOpts region addUserAgent env).endpoint
        = env.settingsEndpoint) := by
  constructor
  · intro hua haf
    subst haf
    cases awsServiceOpts <;>
      (simp only [createAndConfigureServiceClient]
       repeat' split
       all_goals first
         | rfl
         | simp_all)
  · intro he
    cases awsServiceOpts <;>
      (simp only [createAndConfigureServiceClient]
       repeat' split
       all_goals rfl)

/-- C9 amended witness: with no caller options, the default addUserAgent
and a nonempty configured endpoint, both fields are filled. -/
theorem createAndConfigureServiceClient_agent_endpoint_witness :
    (createAndConfigureServiceClient none none true sampleBuilderEnv).customUserAgent
      = some (builtUserAgent sampleBuilderEnv)
    ∧ (createAndConfigureServiceClient none none true sampleBuilderEnv).endpoint
      = sampleBuilderEnv.settingsEndpoint :=
  ⟨(createAndConfigureServiceClient_agent_endpoint none none true sampleBuilderEnv).1
      (by decide) rfl,
   (createAndConfigureServiceClient_agent_endpoint none none true sampleBuilderEnv).2
      (by decide)⟩

/-- C8: every run of the creation workflow, and likewise of the resume
workflow, records exactly one outcome telemetry event — never zero and
never more than one — whatever the outcomes of the awaited collaborator
calls; the event structure carries package type, result kind, reason
code, runtime identifier and tool version. -/
theorem workflow_records_exactly_one_telemetry_event :
    (∀ env : CreateEnv, (createNewSamApplication env).length = 1)
    ∧ (∀ env : ResumeEnv, (resumeCreateNewSamApp env).length = 1) := by
  constructor
  · intro env
    unfold createNewSamApplication
    repeat' split
    all_goals simp [recordSamInit]
  · intro env
    unfold resumeCreateNewSamApp
    repeat' split
    all_goals simp [recordSamInit]

/-- Hex digits below sixteen decode back to their value. -/
theorem hexVal_hexDigit : ∀ n < 16, hexVal (hexDigit n) = some n := by decide

/-- Decoding undoes the escape of one character at the head of the
input. -/
theorem parseStringBody_escChar (c : Char) (l : List Char) :
    parseStringBody (escChar c ++ l) =
      (parseStringBody l).map (fun p => (c :: p.1, p.2)) := by
  by_cases h1 : c = '"'
  · subst h1
    rw [show escChar '"' ++ l = '\\' :: '"' :: l from rfl, parseStringBody.eq_def]
    simp
  by_cases h2 : c = '\\'
  · subst h2
    rw [show escChar '\\' ++ l = '\\' :: '\\' :: l from rfl, parseStringBody.eq_def]
    simp
  by_cases h3 : c = '\n'
  · subst h3
    rw [show escChar '\n' ++ l = '\\' :: 'n' :: l from rfl, parseStringBody.eq_def]
    simp
  by_cases h4 : c = '\r'
  · subst h4
    rw [show escChar '\r' ++ l = '\\' :: 'r' :: l from rfl, parseStringBody.eq_def]
    simp
  by_cases h5 : c = '\t'
  · subst h5
    rw [show escChar '\t' ++ l = '\\' :: 't' :: l from rfl, parseStringBody.eq_def]
    simp
  by_cases h6 : c = '\x08'
  · subst h6
    rw [show escChar '\x08' ++ l = '\\' :: 'b' :: l from rfl, parseStringBody.eq_def]
    simp
  by_cases h7 : c = '\x0c'
  · subst h7
    rw [show escChar '\x0c' ++ l = '\\' :: 'f' :: l from rfl, parseStringBody.eq_def]
    simp
  by_cases h8 : c.toNat < 32
  · have hdiv : c.toNat / 16 < 16 := by omega
    have hmod : c.toNat % 16 < 16 := Nat.mod_lt _ (by omega)
    have hv0 : hexVal '0' = some 0 := by decide
    have hv1 := hexVal_hexDigit (c.toNat / 16) hdiv
    have hv2 := hexVal_hexDigit (c.toNat % 16) hmod
    have hchar : Char.ofNat (c.toNat / 16 * 16 + c.toNat % 16) = c := by
      have heq : c.toNat / 16 * 16 + c.toNat % 16 = c.toNat := by omega
      rw [heq, Char.ofNat_toNat]
    have hesc : escChar c
        = ['\\', 'u', '0', '0', hexDigit (c.toNat / 16), hexDigit (c.toNat % 16)] := by
      simp [escChar, h1, h2, h3, h4, h5, h6, h7, h8]
    rw [hesc, show ['\\', 'u', '0', '0', hexDigit (c.toNat / 16),
        hexDigit (c.toNat % 16)] ++ l
      = '\\' :: 'u' :: '0' :: '0' :: hexDigit (c.toNat / 16)
        :: hexDigit (c.toNat % 16) :: l from rfl, parseStringBody.eq_def]
    simp [hv0, hv1, hv2, hchar]
  · have hesc : escChar c = [c] := by
      simp [escChar, h1, h2, h3, h4, h5, h6, h7, h8]
    rw [hesc, show [c] ++ l = c :: l from rfl, parseStringBody.eq_def]
    simp [h1, h2]

/-- Decoding undoes the escaping of a whole string body up to the
closing quote. -/
theorem parseStringBody_escList (cs l : List Char) :
    parseStringBody (escList cs ++ '"' :: l) = some (cs, l) := by
  induction cs with
  | nil =>
    rw [show escList [] ++ '"' :: l = '"' :: l from rfl, parseStringBody.eq_def]
    simp
  | cons c cs ih =>
    rw [show escList (c :: cs) ++ '"' :: l = escChar c ++ (escList cs ++ '"' :: l) from by
        simp [escList], parseStringBody_escChar, ih]
    rfl

/-- Decoding a serialized string literal returns the original string. -/
theorem parseQuoted_quoteChars (s : String) (l : List Char) :
    parseQuoted (quoteChars s ++ l) = some (s, l) := by
  rw [show quoteChars s ++ l = '"' :: (escList s.data ++ '"' :: l) from by
      simp [quoteChars], parseQuoted.eq_def]
  simp [parseStringBody_escList, show s.data.asString = s from rfl]

/-- Decoding a serialized object member returns the original pair. -/
theorem parseEntry_entryChars (kv : String × String) (l : List Char) :
    parseEntry (entryChars kv ++ l) = some (kv, l) := by
  rw [show entryChars kv ++ l = quoteChars kv.1 ++ (':' :: (quoteChars kv.2 ++ l)) from by
      simp [entryChars], parseEntry.eq_def]
  simp [parseQuoted_quoteChars]

/-- Decoding a serialized member sequence returns the original members,
provided the fuel exceeds the number of remaining members. -/
theorem parseEntries_joinEntries (es : List (String × String)) :
    ∀ (e : String × String) (l : List Char) (fuel : Nat), es.length < fuel →
      parseEntries fuel (entryChars e ++ (joinEntries es ++ '}' :: l)) = some (e :: es, l) := by
  induction es with
  | nil =>
    intro e l fuel hf
    match fuel, hf with
    | fuel + 1, _ =>
      rw [show entryChars e ++ (joinEntries [] ++ '}' :: l) = entryChars e ++ '}' :: l from rfl]
      simp [parseEntries, parseEntry_entryChars]
  | cons e2 es2 ih =>
    intro e l fuel hf
    match fuel, hf with
    | fuel + 1, hf =>
      have h2 : es2.length < fuel := by
        simp at hf
        omega
      rw [show entryChars e ++ (joinEntries (e2 :: es2) ++ '}' :: l)
          = entryChars e ++ (',' :: (entryChars e2 ++ (joinEntries es2 ++ '}' :: l))) from by
          simp [joinEntries]]
      simp [parseEntries, parseEntry_entryChars, ih e2 l fuel h2]

/-- A serialized member sequence is at least as long as its member
list. -/
theorem joinEntries_length_ge (es : List (String × String)) :
    es.length ≤ (joinEntries es).length := by
  induction es with
  | nil => simp [joinEntries]
  | cons kv es ih =>
    simp [joinEntries]
    omega

/-- Round trip: JSON decoding the serialization of a string mapping
yields the original mapping. -/
theorem jsonParseObj_stringify (m : List (String × String)) :
    jsonParseObj (jsonStringifyObj m) = some m := by
  cases m with
  | nil => rfl
  | cons e es =>
    have hobj : objChars (e :: es) = '{' :: (entryChars e ++ (joinEntries es ++ '}' :: [])) := by
      simp [objChars]
    have hqc : ∃ t, entryChars e ++ (joinEntries es ++ '}' :: []) = '"' :: t := by
      refine ⟨(escList e.1.data ++ '"' :: (':' :: quoteChars e.2))
        ++ (joinEntries es ++ '}' :: []), ?_⟩
      simp [entryChars, quoteChars]
    rcases hqc with ⟨t, ht⟩
    have hlen : es.length < t.length + 1 := by
      have h1 := joinEntries_length_ge es
      have h2 := congrArg List.length ht
      simp at h2
      omega
    have hparse : parseEntries (t.length + 1) ('"' :: t) = some (e :: es, []) := by
      rw [← ht]
      exact parseEntries_joinEntries es e [] (t.length + 1) hlen
    have hdata : ((objChars (e :: es)).asString).data = '{' :: '"' :: t := by
      rw [show ((objChars (e :: es)).asString).data = objChars (e :: es) from rfl, hobj, ht]
    rw [show jsonStringifyObj (e :: es) = (objChars (e :: es)).asString from rfl,
        jsonParseObj.eq_def, hdata]
    simp [hparse]

/-- The serializer output begins with an opening brace, so it never
equals a string beginning otherwise. -/
theorem jsonStringifyObj_head (m : List (String × String)) :
    (jsonStringifyObj m).data.head? = some '{' := by
  cases m <;> rfl

/-- C6: a zip init request without a template identifier yields an
argument vector without the app-template flag, and without the
extra-context flag when the extra context is absent: a flag is never
emitted when its value is absent.  The free form fields are assumed not
to collide with the flag tokens themselves. -/
theorem buildInitArgs_omits_absent_flags (mapTemplate : String → String) (r : InitRequest)
    (hz : r.packageType = .zip) (ht : r.template = none)
    (hvals : ∀ v ∈ r.name :: r.dependencyManager :: r.runtime.toList,
        v ≠ "--app-template" ∧ v ≠ "--extra-context") :
    "--app-template" ∉ buildInitArgs mapTemplate r
    ∧ (r.extraContent = none → "--extra-context" ∉ buildInitArgs mapTemplate r) := by
  obtain ⟨hn1, hn2⟩ := hvals r.name (by simp)
  obtain ⟨hd1, hd2⟩ := hvals r.dependencyManager (by simp)
  have hrta : ∀ s, r.runtime = some s → s ≠ "--app-template" ∧ s ≠ "--extra-context" :=
    fun s hs => hvals s (by simp [hs])
  have hjson : ∀ mm : List (String × String), "--app-template" ≠ jsonStringifyObj mm := by
    intro mm hje
    have hh := jsonStringifyObj_head mm
    rw [← hje] at hh
    exact absurd hh (by decide)
  unfold buildInitArgs
  rw [hz, ht]
  constructor
  · cases hrtc : r.runtime with
    | none =>
      cases hec : r.extraContent with
      | none => simp [Ne.symm hn1, Ne.symm hd1]
      | some mm => simp [Ne.symm hn1, Ne.symm hd1, hjson mm]
    | some rt =>
      obtain ⟨ha, -⟩ := hrta rt hrtc
      cases hec : r.extraContent with
      | none => simp [Ne.symm hn1, Ne.symm hd1, Ne.symm ha]
      | some mm => simp [Ne.symm hn1, Ne.symm hd1, Ne.symm ha, hjson mm]
  · intro hec
    rw [hec]
    cases hrtc : r.runtime with
    | none => simp [Ne.symm hn2, Ne.symm hd2]
    | some rt =>
      obtain ⟨-, hb⟩ := hrta rt hrtc
      simp [Ne.symm hn2, Ne.symm hd2, Ne.symm hb]

/-- C6 witness: the hello world zip request without template emits
neither the app-template nor the extra-context flag. -/
theorem buildInitArgs_omits_absent_flags_witness :
    "--app-template" ∉ buildInitArgs (fun t => t) sampleInitRequest
    ∧ "--extra-context" ∉ buildInitArgs (fun t => t) sampleInitRequest :=
  ⟨(buildInitArgs_omits_absent_flags (fun t => t) sampleInitRequest rfl rfl (by decide)).1,
   (buildInitArgs_omits_absent_flags (fun t => t) sampleInitRequest rfl rfl (by decide)).2 rfl⟩

/-- C7: with an extra template context present, the argument vector
contains exactly one extra-context entry, its value is the JSON
serialization of the mapping, and JSON decoding that value returns a
mapping equal to the original: the serialize then parse round trip is
the identity.  The free form fields are assumed not to collide with the
flag token. -/
theorem buildInitArgs_extra_context_roundtrip (mapTemplate : String → String)
    (r : InitRequest) (m : List (String × String))
    (hm : r.extraContent = some m)
    (hvals : ∀ v ∈ r.name :: r.dependencyManager ::
        (r.runtime.toList ++ r.baseImage.toList ++ (r.template.map mapTemplate).toList),
        v ≠ "--extra-context") :
    (buildInitArgs mapTemplate r).count "--extra-context" = 1
    ∧ jsonParseObj (jsonStringifyObj m) = some m
    ∧ (∃ pre, buildInitArgs mapTemplate r = pre ++ ["--extra-context", jsonStringifyObj m]
        ∧ "--extra-context" ∉ pre) := by
  obtain hn := hvals r.name (by simp)
  obtain hd := hvals r.dependencyManager (by simp)
  have hrt : ∀ s, r.runtime = some s → s ≠ "--extra-context" :=
    fun s hs => hvals s (by simp [hs])
  have hbi : ∀ s, r.baseImage = some s → s ≠ "--extra-context" :=
    fun s hs => hvals s (by simp [hs])
  have htp : ∀ s, r.template = some s → mapTemplate s ≠ "--extra-context" :=
    fun s hs => hvals (mapTemplate s) (by simp [hs])
  have hjson : jsonStringifyObj m ≠ "--extra-context" := by
    intro hje
    have hh := jsonStringifyObj_head m
    rw [hje] at hh
    exact absurd hh (by decide)
  refine ⟨?_, jsonParseObj_stringify m, ?_⟩
  · unfold buildInitArgs
    rw [hm]
    cases hp : r.packageType with
    | zip =>
      cases hrtc : r.runtime with
      | none =>
        cases htpc : r.template with
        | none =>
          simp [List.count_append, List.count_cons, Ne.symm hn, Ne.symm hd, Ne.symm hjson]
        | some tv =>
          have h3 := htp tv htpc
          simp [List.count_append, List.count_cons, Ne.symm hn, Ne.symm hd,
            Ne.symm hjson, Ne.symm h3]
      | some rtv =>
        have h2 := hrt rtv hrtc
        cases htpc : r.template with
        | none =>
          simp [List.count_append, List.count_cons, Ne.symm hn, Ne.symm hd,
            Ne.symm hjson, Ne.symm h2]
        | some tv =>
          have h3 := htp tv htpc
          simp [List.count_append, List.count_cons, Ne.symm hn, Ne.symm hd,
            Ne.symm hjson, Ne.symm h2, Ne.symm h3]
    | image =>
      cases hbic : r.baseImage with
      | none =>
        simp [List.count_append, List.count_cons, Ne.symm hn, Ne.symm hd, Ne.symm hjson]
      | some bv =>
        have h2 := hbi bv hbic
        simp [List.count_append, List.count_cons, Ne.symm hn, Ne.symm hd,
          Ne.symm hjson, Ne.symm h2]
  · refine ⟨["init", "--name", r.name, "--no-interactive", "--dependency-manager",
      r.dependencyManager] ++ (match r.packageType with
        | .image => (match r.baseImage with
            | some b => ["--base-image", b]
            | none => [])
        | .zip => (match r.runtime with
            | some rt => ["--runtime", rt]
            | none => [])
          ++ (match r.template with
              | some t => ["--app-template", mapTemplate t]
              | none => [])), ?_, ?_⟩
    · unfold buildInitArgs
      rw [hm]
    · cases hp : r.packageType with
      | zip =>
        cases hrtc : r.runtime with
        | none =>
          cases htpc : r.template with
          | none => simp [Ne.symm hn, Ne.symm hd]
          | some tv =>
            have h3 := htp tv htpc
            simp [Ne.symm hn, Ne.symm hd, Ne.symm h3]
        | some rtv =>
          have h2 := hrt rtv hrtc
          cases htpc : r.template with
          | none => simp [Ne.symm hn, Ne.symm hd, Ne.symm h2]
          | some tv =>
            have h3 := htp tv htpc
            simp [Ne.symm hn, Ne.symm hd, Ne.symm h2, Ne.symm h3]
      | image =>
        cases hbic : r.baseImage with
        | none => simp [Ne.symm hn, Ne.symm hd]
        | some bv =>
          have h2 := hbi bv hbic
          simp [Ne.symm hn, Ne.symm hd, Ne.symm h2]

/-- C7 witness: the event bridge request with the test extra context
yields one extra-context entry whose JSON value decodes back to the
original mapping. -/
theorem buildInitArgs_extra_context_roundtrip_witness :
    (buildInitArgs (fun t => t) sampleEventBridgeRequest).count "--extra-context" = 1
    ∧ jsonParseObj (jsonStringifyObj sampleExtraContent) = some sampleExtraContent
    ∧ (∃ pre, buildInitArgs (fun t => t) sampleEventBridgeRequest
        = pre ++ ["--extra-context", jsonStringifyObj sampleExtraContent]
        ∧ "--extra-context" ∉ pre) :=
  buildInitArgs_extra_context_roundtrip (fun t => t) sampleEventBridgeRequest
    sampleExtraContent rfl (by decide)

end AwsToolkit
